import Mathlib

/-!
A shallow embedding of `addons/splatoon-scene-importer/importers/splatoon/material_processor.py`.

The Blender host API is modelled explicitly:
* a material owns a node tree (a list of nodes and a list of directed links);
* `bpy.data.images` is a registry list of images; a texture node refers to an
  image by its index in that registry;
* node/link creation mutates a `SceneState` record that is threaded through
  every operation;
* `links.new(out, in)` on a single-input socket replaces any link already
  terminating at that input socket (Blender semantics);
* Python `None`-dereference failures (AttributeError) and the
  reference-before-assignment failure (UnboundLocalError) surface as values of
  `PyErr` in an `Except` result;
* pixel channel values are modelled as rationals (only equality of channels is
  ever inspected by the code);
* node `type` tags and socket names are the literal strings used by the source
  (indexed sockets of mix nodes are named: MixRGB inputs 0,1,2 are
  "Fac","Color1","Color2"; MixShader inputs 0,1,2 are "Fac","Shader1","Shader2";
  AddShader inputs 0,1 are "Shader0","Shader1"; an RGB node's output 0 is
  "Color").
-/

/-- A loaded image data block (an entry of the `bpy.data.images` registry).
`colorspace` models `image.colorspace_settings.name`; `pixels` is the flat
RGBA float list `image.pixels[:]`. -/
structure Image where
  filepath : String
  colorspace : String
  pixels : List ℚ
deriving DecidableEq, Repr

/-- A shader node.  `type` is the node's type tag (e.g. "BSDF_PRINCIPLED",
"TEX_IMAGE"); `image` is the registry index of the image attached to a
texture node; `blend_type`, `fac_default` and `rgb_default` record the field
assignments the source performs on freshly created mix/RGB nodes;
`location` models `node.location`. -/
structure Node where
  id : Nat
  type : String
  image : Option Nat := none
  blend_type : String := ""
  fac_default : Option ℚ := none
  rgb_default : Option (ℚ × ℚ × ℚ × ℚ) := none
  location : ℚ × ℚ := (0, 0)
deriving DecidableEq, Repr

/-- A directed link from an output socket to an input socket
(`node_tree.links` entry); nodes are referred to by id. -/
structure Link where
  from_node : Nat
  from_socket : String
  to_node : Nat
  to_socket : String
deriving DecidableEq, Repr

/-- `material.node_tree`. -/
structure NodeTree where
  nodes : List Node
  links : List Link
deriving DecidableEq, Repr

/-- A Blender material: a name and a node tree. -/
structure Material where
  name : String
  node_tree : NodeTree
deriving DecidableEq, Repr

/-- The mutable host state threaded through the operations: the processed
material, the `bpy.data.images` registry, and the id supply for new nodes. -/
structure SceneState where
  material : Material
  images : List Image
  nextNodeId : Nat
deriving DecidableEq, Repr

/-- The filesystem visible to `import_texture`: `listing` is the result of
`os.listdir` on the processor's directory (`none` models `OSError` /
`FileNotFoundError`); `pixelsOf` gives the pixel data the host would load
from a given full path. -/
structure FileSystem where
  listing : Option (List String)
  pixelsOf : String → List ℚ

/-- Python runtime failures that the code can raise. -/
inductive PyErr where
  | attributeError
  | unboundLocal
deriving DecidableEq, Repr

def SceneState.nodes (st : SceneState) : List Node := st.material.node_tree.nodes

def SceneState.links (st : SceneState) : List Link := st.material.node_tree.links

/-- Replace the node list of the state's material. -/
def setNodes (st : SceneState) (ns : List Node) : SceneState :=
  { st with material := { st.material with node_tree := { st.material.node_tree with nodes := ns } } }

/-- Replace the link list of the state's material. -/
def setLinks (st : SceneState) (ls : List Link) : SceneState :=
  { st with material := { st.material with node_tree := { st.material.node_tree with links := ls } } }

/-- `node_tree.nodes.new(...)`: append a fresh node (callers pick its id as
`st.nextNodeId`) and advance the id supply. -/
def addNode (st : SceneState) (n : Node) : SceneState :=
  { setNodes st (st.nodes ++ [n]) with nextNodeId := st.nextNodeId + 1 }

/-- Does link `l` terminate at input socket `tsock` of node `tn`? -/
def linkReplaces (l : Link) (tn : Nat) (tsock : String) : Bool :=
  l.to_node == tn && l.to_socket == tsock

/-- `node_tree.links.new(from/out, to/in)` on a single-input socket: any link
already terminating at the target input socket is dropped, the new link is
appended. -/
def addLink (st : SceneState) (fn : Nat) (fsock : String) (tn : Nat) (tsock : String) : SceneState :=
  setLinks st ((st.links.filter (fun l => !(linkReplaces l tn tsock))) ++ [⟨fn, fsock, tn, tsock⟩])

/-- `bpy.data.images.load(path)`: append a new image to the registry. -/
def addImage (st : SceneState) (img : Image) : SceneState :=
  { st with images := st.images ++ [img] }

/-- Update the element of `l` at position `i` (identity when out of range). -/
def updList {α : Type} : List α → Nat → (α → α) → List α
  | [], _, _ => []
  | a :: l, 0, f => f a :: l
  | a :: l, i + 1, f => a :: updList l i f

/-- `image.colorspace_settings.name = cs` on the registry image at index `i`. -/
def setImageColorspace (st : SceneState) (i : Nat) (cs : String) : SceneState :=
  { st with images := updList st.images i (fun img => { img with colorspace := cs }) }

/-- Look a node up by id (Blender hands out object references; the embedding
stores ids and resolves them against the node list). -/
def getNode (st : SceneState) (i : Nat) : Option Node :=
  st.nodes.find? (fun n => n.id == i)

/-- The type tag of the node with id `i` (empty when no such node exists;
unreachable for the states the operations build). -/
def getNodeType (st : SceneState) (i : Nat) : String :=
  ((getNode st i).map (fun n => n.type)).getD ""

/-- `node.location` of the node with id `i`. -/
def nodeLocation (st : SceneState) (i : Nat) : ℚ × ℚ :=
  ((getNode st i).map (fun n => n.location)).getD (0, 0)

/-- Does the character list `pat` occur at the head of `s`? -/
def matchesAt : List Char → List Char → Bool
  | [], _ => true
  | _ :: _, [] => false
  | p :: ps, c :: cs => p == c && matchesAt ps cs

/-- `str.lower()` as a character list (ASCII, per the filenames involved). -/
def lowerChars (s : String) : List Char := s.toList.map Char.toLower

/-- Index (counting from `i`) of the leftmost occurrence of `pat` in `s`. -/
def substrIdxAux (pat : List Char) : List Char → Nat → Option Nat
  | [], i => if matchesAt pat [] then some i else none
  | c :: rest, i =>
    if matchesAt pat (c :: rest) then some i else substrIdxAux pat rest (i + 1)

/-- `re.compile(re.escape(pat), re.IGNORECASE).search(s)`: the start index of
the leftmost case-insensitive occurrence of `pat` in `s` (the suffixes contain
no regex metacharacters, so the escaped pattern is a literal substring). -/
def substrIdx (s pat : String) : Option Nat :=
  substrIdxAux (lowerChars pat) (lowerChars s) 0

/-- Python slice `s[:k]`. -/
def strTake (s : String) (k : Nat) : String := String.mk (s.toList.take k)

/-- `str.lower()`. -/
def pyLower (s : String) : String := String.mk (lowerChars s)

/-- `os.path.basename` (POSIX): the part after the final `/`.
`bpy.path.abspath` is modelled as the identity (the embedded paths are
already absolute), so it does not alter the basename. -/
def pathBasename (p : String) : String :=
  String.mk ((p.toList.reverse.takeWhile (fun c => c != '/')).reverse)

/-- `s.split('.')[0]`: the part of `s` before its first `.`. -/
def split_head (s : String) : String :=
  String.mk (s.toList.takeWhile (fun c => c != '.'))

/-- Python `a or b` where `a` is an optional string: an absent or empty first
operand yields the second. -/
def pyOr (a : Option String) (b : String) : String :=
  match a with
  | some s => if s = "" then b else s
  | none => b

/-- The suffix list of `MaterialProcessor._find_base_texture`. -/
def suffixList : List String := ["_alb", "_emm", "_emi"]

/-- The body of `_find_base_texture`'s node loop for one node: a `TEX_IMAGE`
node with an attached image whose filename contains one of the suffixes
(patterns tried in `suffixList` order) yields the filename prefix before the
match; any other node yields nothing. -/
def nodeBaseMatch (images : List Image) (node : Node) : Option String :=
  if node.type == "TEX_IMAGE" then
    match node.image with
    | none => none
    | some iid =>
      match images[iid]? with
      | none => none
      | some img =>
        let basename := pathBasename img.filepath
        suffixList.findSome? (fun sfx =>
          (substrIdx basename sfx).map (fun k => strTake basename k))
  else none

/-- `MaterialProcessor._find_base_texture`: scan the material's nodes in order
and return the first per-node match. -/
def find_base_texture (tree : NodeTree) (images : List Image) : Option String :=
  tree.nodes.findSome? (nodeBaseMatch images)

/-- `MaterialProcessor._find_base_from_material`: the material name with any
trailing `.NNN` removed (`material.name.split('.')[0]`).  The processor always
holds a material, so the `if not self.material` branch of the source is
unreachable here. -/
def find_base_from_material (m : Material) : String := split_head m.name

/-- `MaterialProcessor._find_principled_node`: the first node of type
`BSDF_PRINCIPLED`. -/
def find_principled_node (m : Material) : Option Node :=
  m.node_tree.nodes.find? (fun n => n.type == "BSDF_PRINCIPLED")

/-- The cached fields of a `MaterialProcessor` instance. -/
structure MaterialProcessor where
  file_path : String
  base_name : String
  principled_node : Option Nat
deriving DecidableEq, Repr

/-- `MaterialProcessor.__init__`: derive `base_name` (texture scan, falling
back through Python `or` to the material-name split) and cache the principled
node. -/
def mkProcessor (st : SceneState) (file_path : String) : MaterialProcessor :=
  { file_path := file_path
    base_name := pyOr (find_base_texture st.material.node_tree st.images)
      (find_base_from_material st.material)
    principled_node := (find_principled_node st.material).map (fun n => n.id) }

/-- The inner `find_texture_file` of `import_texture`: list the directory and
return the joined path of the first file whose name equals
`base ++ sfx ++ ".png"` case-insensitively; a listing failure or no match
yields `none`. -/
def find_texture_file (listing : Option (List String)) (dir_path base sfx : String) : Option String :=
  match listing with
  | none => none
  | some files =>
    (files.find? (fun f => pyLower f == pyLower (base ++ sfx ++ ".png"))).map
      (fun f => dir_path ++ "/" ++ f)

/-- The texture node `nodes.new('ShaderNodeTexImage')` creates in state `st`,
already carrying the registry index its image will get
(`tex_image_node.image = bpy.data.images.load(...)`). -/
def texNode (st : SceneState) : Node :=
  { id := st.nextNodeId, type := "TEX_IMAGE", image := some st.images.length }

/-- The image `bpy.data.images.load(texture_path)` yields, after the optional
`colorspace_settings.name = 'Non-Color'` assignment. -/
def texImg (fs : FileSystem) (texture_path : String) (non_color : Bool) : Image :=
  { filepath := texture_path
    colorspace := if non_color then "Non-Color" else "sRGB"
    pixels := fs.pixelsOf texture_path }

/-- `MaterialProcessor.import_texture(suffix, non_color)`: on resolution
failure return the state unchanged and no node (`False` in the source); on
success create a texture node, load the file as a fresh registry image, attach
it, and mark the image `Non-Color` when `non_color` is set.  The created node
is returned together with the updated state. -/
def import_texture (fs : FileSystem) (mp : MaterialProcessor) (st : SceneState)
    (suffix : String) (non_color : Bool) : SceneState × Option Node :=
  match find_texture_file fs.listing mp.file_path mp.base_name suffix with
  | none => (st, none)
  | some texture_path =>
    (addImage (addNode st (texNode st)) (texImg fs texture_path non_color), some (texNode st))

/-- `MaterialProcessor.link_texture_principled_node`: no-op on a falsy node;
otherwise link the node's Color output to the named principled input
(dereferencing `self.principled_node`, an AttributeError when it is `None`). -/
def link_texture_principled_node (mp : MaterialProcessor) (st : SceneState)
    (tex : Option Node) (input_name : String) : Except PyErr SceneState :=
  match tex with
  | none => .ok st
  | some t =>
    match mp.principled_node with
    | none => .error .attributeError
    | some p => .ok (addLink st t.id "Color" p input_name)

/-- Does link `l` terminate at the `Normal` input of the cached principled
node?  (`link.to_node == self.principled_node` compares against `None` as
plain inequality, so it is `false` when no principled node was cached.) -/
def toPrincipledNormal (mp : MaterialProcessor) (l : Link) : Bool :=
  match mp.principled_node with
  | some p => l.to_node == p && l.to_socket == "Normal"
  | none => false

/-- `MaterialProcessor.import_normal`.  The source never initializes
`normal_map_node` before the link-search loop; the loop keeps the source node
of the LAST matching link, and when no link matches, the subsequent
`if not normal_map_node` read raises `UnboundLocalError` — so the
`nodes.new('ShaderNodeNormalMap')` fallback of the source is dead code and the
empty-search case surfaces as `.error .unboundLocal` here. -/
def import_normal (fs : FileSystem) (mp : MaterialProcessor) (st : SceneState) :
    Except PyErr SceneState :=
  let r := import_texture fs mp st "_nrm" true
  match r.2 with
  | none => .ok r.1
  | some tex =>
    let st1 := r.1
    let hits := st1.links.filter (toPrincipledNormal mp)
    match hits.getLast? with
    | none => .error .unboundLocal
    | some link =>
      let nmId := link.from_node
      let st2 := addLink st1 tex.id "Color" nmId "Color"
      match mp.principled_node with
      | none => .error .attributeError
      | some p => .ok (addLink st2 nmId "Normal" p "Normal")

/-- The `_mai` half of `MaterialProcessor.import_second_alb`, entered with the
current Base-Color source (`original`, the `_tcl` mix node when one was built)
and the white node created by the `_tcl` branch, if any.  When `_mai` resolves:
build a MULTIPLY mix with factor 1.0, create a white node unless the `_tcl`
branch already made one, wire source/factor/white, and reroute Base Color
through the multiply node. -/
def sndAlbMai (fs : FileSystem) (mp : MaterialProcessor) (st : SceneState)
    (original white : Option Nat) (p : Nat) : Except PyErr SceneState :=
  let r := import_texture fs mp st "_mai" true
  let st1 := r.1
  match r.2 with
  | none => .ok st1
  | some mai =>
    let multId := st1.nextNodeId
    let st2 := addNode st1
      { id := multId, type := "MIX_RGB", blend_type := "MULTIPLY", fac_default := some 1 }
    let pLoc := nodeLocation st2 p
    let wr : SceneState × Nat :=
      match white with
      | some w => (st2, w)
      | none =>
        (addNode st2 { id := st2.nextNodeId, type := "RGB", rgb_default := some (1, 1, 1, 1),
                       location := (pLoc.1 + 200, pLoc.2 + 200) }, st2.nextNodeId)
    let st3 := wr.1
    let whiteId := wr.2
    let st4 := match original with
      | some o => addLink st3 o "Color" multId "Color1"
      | none => st3
    let st5 := addLink st4 mai.id "Color" multId "Fac"
    let st6 := addLink st5 whiteId "Color" multId "Color2"
    .ok (addLink st6 multId "Color" p "Base Color")

/-- `MaterialProcessor.import_second_alb`.  The very first statement of the
source reads `self.principled_node.inputs['Base Color']`, an AttributeError
when no principled node was cached.  Otherwise: remember the current
Base-Color source, handle `_tcl` (MIX node + white node, rerouting Base Color
and becoming the new source), then hand over to the `_mai` half. -/
def import_second_alb (fs : FileSystem) (mp : MaterialProcessor) (st : SceneState) :
    Except PyErr SceneState :=
  match mp.principled_node with
  | none => .error .attributeError
  | some p =>
    let original0 : Option Nat :=
      (st.links.find? (fun l => linkReplaces l p "Base Color")).map (fun l => l.from_node)
    let r := import_texture fs mp st "_tcl" true
    let st1 := r.1
    match r.2 with
    | none => sndAlbMai fs mp st1 original0 none p
    | some tcl =>
      let mixId := st1.nextNodeId
      let st2 := addNode st1 { id := mixId, type := "MIX_RGB", blend_type := "MIX" }
      let pLoc := nodeLocation st2 p
      let whiteId := st2.nextNodeId
      let st3 := addNode st2 { id := whiteId, type := "RGB", rgb_default := some (1, 1, 1, 1),
                               location := (pLoc.1, pLoc.2 + 200) }
      let st4 := match original0 with
        | some o => addLink st3 o "Color" mixId "Color1"
        | none => st3
      let st5 := addLink st4 tcl.id "Color" mixId "Fac"
      let st6 := addLink st5 whiteId "Color" mixId "Color2"
      let st7 := addLink st6 mixId "Color" p "Base Color"
      sndAlbMai fs mp st7 (some mixId) (some whiteId) p

/-- The tail of `MaterialProcessor.import_second_shader`, from the creation
of the mix-shader node on: build the mix shader (factor fixed at 1.0, fed by
the translucent BSDF), the add shader (principled BSDF output plus mix-shader
output), locate the first material-output node (create one when absent), wire
the add shader into its `Surface` input (replacing whatever drove it), and,
when `_thc` resolved, wire the `_thc` texture's Color output into the
mix-shader's `Fac` input. -/
def finishShaderRig (st9 : SceneState) (translucentId : Nat) (thcOpt : Option Node)
    (p : Nat) : SceneState :=
  let mixShaderId := st9.nextNodeId
  let st10 := addNode st9 { id := mixShaderId, type := "MIX_SHADER", fac_default := some 1 }
  let st11 := addLink st10 translucentId "BSDF" mixShaderId "Shader1"
  let addShaderId := st11.nextNodeId
  let st12 := addNode st11 { id := addShaderId, type := "ADD_SHADER" }
  let st13 := addLink st12 p "BSDF" addShaderId "Shader0"
  let st14 := addLink st13 mixShaderId "Shader" addShaderId "Shader1"
  let outp : SceneState × Nat :=
    match st14.nodes.find? (fun n => n.type == "OUTPUT_MATERIAL") with
    | some n => (st14, n.id)
    | none => (addNode st14 { id := st14.nextNodeId, type := "OUTPUT_MATERIAL" }, st14.nextNodeId)
  let st16 := addLink outp.1 addShaderId "Shader" outp.2 "Surface"
  match thcOpt with
  | some thcn => addLink st16 thcn.id "Color" mixShaderId "Fac"
  | none => st16

/-- The `_trm`-present body of `import_second_shader`: multiply mix of the
`_trm` texture with white (factor 1.0) feeding a translucent BSDF; an
existing normal-map node wired into the principled `Normal` input (first
match, loop breaks) is also wired into the translucent node; then hand over
to `finishShaderRig`. -/
def buildShaderRig (st2 : SceneState) (trm : Node) (thcOpt : Option Node) (p : Nat) :
    SceneState :=
  let mixId := st2.nextNodeId
  let st3 := addNode st2
    { id := mixId, type := "MIX_RGB", blend_type := "MULTIPLY", fac_default := some 1 }
  let pLoc := nodeLocation st3 p
  let whiteId := st3.nextNodeId
  let st4 := addNode st3 { id := whiteId, type := "RGB", rgb_default := some (1, 1, 1, 1),
                           location := (pLoc.1 + 100, pLoc.2 + 200) }
  let st5 := addLink st4 trm.id "Color" mixId "Color1"
  let st6 := addLink st5 whiteId "Color" mixId "Color2"
  let translucentId := st6.nextNodeId
  let st7 := addNode st6 { id := translucentId, type := "BSDF_TRANSLUCENT" }
  let st8 := addLink st7 mixId "Color" translucentId "Color"
  let nm : Option Nat := st8.links.findSome? (fun l =>
    if l.to_node == p && l.to_socket == "Normal" && (getNodeType st8 l.from_node == "NORMAL_MAP")
    then some l.from_node else none)
  let st9 := match nm with
    | some nid => addLink st8 nid "Normal" translucentId "Normal"
    | none => st8
  finishShaderRig st9 translucentId thcOpt p

/-- `MaterialProcessor.import_second_shader`.  Both `_trm` and `_thc` are
imported up front (each creating a texture node when its file resolves); the
shader rig is built only when `_trm` resolved.  Building the rig reads
`self.principled_node.location`, an AttributeError when no principled node was
cached (the source creates the multiply mix node before that read; since an
error discards the state, the dereference is checked up front here). -/
def import_second_shader (fs : FileSystem) (mp : MaterialProcessor) (st : SceneState) :
    Except PyErr SceneState :=
  let r1 := import_texture fs mp st "_trm" false
  let r2 := import_texture fs mp r1.1 "_thc" true
  match r1.2 with
  | none => .ok r2.1
  | some trm =>
    match mp.principled_node with
    | none => .error .attributeError
    | some p => .ok (buildShaderRig r2.1 trm r2.2 p)

/-- The pixel loop of `MaterialProcessor._is_grayscale_image`: walk the flat
RGBA list four entries at a time; any chunk with differing R, G, B channels
classifies the image as colored.  (The source indexes `pixels[i+1]` and
`pixels[i+2]`, so only lists of RGBA quadruples — length a multiple of 4 —
are meaningful inputs.) -/
def grayscalePixels : List ℚ → Bool
  | r :: g :: b :: _ :: rest =>
    if r ≠ g ∨ g ≠ b ∨ b ≠ r then false else grayscalePixels rest
  | _ => true

/-- `MaterialProcessor._is_grayscale_image`. -/
def is_grayscale_image (img : Image) : Bool := grayscalePixels img.pixels

/-- The link-search loop of `import_emission`: the first link terminating at
the principled node's `Emission Color` input whose source node is a
`TEX_IMAGE` node (the loop breaks on the first such link). -/
def findEmissionSource (st : SceneState) (p : Nat) : Option Node :=
  st.links.findSome? (fun l =>
    if l.to_node == p && l.to_socket == "Emission Color" then
      match getNode st l.from_node with
      | some n => if n.type == "TEX_IMAGE" then some n else none
      | none => none
    else none)

/-- `MaterialProcessor.import_emission`: no-op when no principled node was
cached; otherwise reuse an existing emission texture node, or try `_emm` then
`_emi`.  When a source node with an attached image exists: force the image to
`Non-Color` if it is grayscale, then build a MULTIPLY mix fed by the current
Base-Color source (when linked) and the emission texture, and reroute the
principled `Emission Color` input through it. -/
def import_emission (fs : FileSystem) (mp : MaterialProcessor) (st : SceneState) :
    Except PyErr SceneState :=
  match mp.principled_node with
  | none => .ok st
  | some p =>
    let r1 : SceneState × Option Node :=
      match findEmissionSource st p with
      | some n => (st, some n)
      | none => import_texture fs mp st "_emm" false
    let r2 : SceneState × Option Node :=
      match r1.2 with
      | some n => (r1.1, some n)
      | none => import_texture fs mp r1.1 "_emi" false
    let st2 := r2.1
    match r2.2 with
    | none => .ok st2
    | some en =>
      match en.image with
      | none => .ok st2
      | some iid =>
        match st2.images[iid]? with
        | none => .ok st2
        | some img =>
          let st3 := if is_grayscale_image img then setImageColorspace st2 iid "Non-Color" else st2
          let mixId := st3.nextNodeId
          let st4 := addNode st3
            { id := mixId, type := "MIX_RGB", blend_type := "MULTIPLY", fac_default := some 1 }
          let st5 := match st4.links.find? (fun l => linkReplaces l p "Base Color") with
            | some l => addLink st4 l.from_node "Color" mixId "Color1"
            | none => st4
          let st6 := addLink st5 en.id "Color" mixId "Color2"
          .ok (addLink st6 mixId "Color" p "Emission Color")

deriving instance DecidableEq for Except

theorem nodes_setLinks (st : SceneState) (ls : List Link) : (setLinks st ls).nodes = st.nodes := rfl

theorem links_setLinks (st : SceneState) (ls : List Link) : (setLinks st ls).links = ls := rfl

theorem nodes_addNode (st : SceneState) (n : Node) : (addNode st n).nodes = st.nodes ++ [n] := rfl

theorem links_addNode (st : SceneState) (n : Node) : (addNode st n).links = st.links := rfl

theorem images_addNode (st : SceneState) (n : Node) : (addNode st n).images = st.images := rfl

theorem nextNodeId_addNode (st : SceneState) (n : Node) :
    (addNode st n).nextNodeId = st.nextNodeId + 1 := rfl

theorem nodes_addLink (st : SceneState) (fn : Nat) (fsock : String) (tn : Nat) (tsock : String) :
    (addLink st fn fsock tn tsock).nodes = st.nodes := rfl

theorem images_addLink (st : SceneState) (fn : Nat) (fsock : String) (tn : Nat) (tsock : String) :
    (addLink st fn fsock tn tsock).images = st.images := rfl

theorem nextNodeId_addLink (st : SceneState) (fn : Nat) (fsock : String) (tn : Nat) (tsock : String) :
    (addLink st fn fsock tn tsock).nextNodeId = st.nextNodeId := rfl

theorem links_addLink (st : SceneState) (fn : Nat) (fsock : String) (tn : Nat) (tsock : String) :
    (addLink st fn fsock tn tsock).links =
      (st.links.filter (fun l => !(linkReplaces l tn tsock))) ++ [⟨fn, fsock, tn, tsock⟩] := rfl

theorem linkReplaces_mk (fn : Nat) (fsock : String) (tn tn' : Nat) (tsock tsock' : String) :
    linkReplaces ⟨fn, fsock, tn, tsock⟩ tn' tsock' = (tn == tn' && tsock == tsock') := rfl

/-- After `links.new` into socket `tsock` of node `tn`, the new link is the
only link terminating there. -/
theorem filter_addLink_self (st : SceneState) (fn : Nat) (fsock : String) (tn : Nat) (tsock : String) :
    ((addLink st fn fsock tn tsock).links.filter (fun l => linkReplaces l tn tsock)) =
      [⟨fn, fsock, tn, tsock⟩] := by
  rw [links_addLink, List.filter_append, List.filter_filter]
  have h1 : ∀ l : Link, (linkReplaces l tn tsock && !(linkReplaces l tn tsock)) = false := by
    intro l; cases linkReplaces l tn tsock <;> rfl
  simp [h1, linkReplaces]

/-- `links.new` into a different input socket does not disturb the links
terminating at `(tn', tsock')`. -/
theorem filter_addLink_other (st : SceneState) (fn : Nat) (fsock : String) (tn : Nat) (tsock : String)
    (tn' : Nat) (tsock' : String) (h : tn' ≠ tn ∨ tsock' ≠ tsock) :
    ((addLink st fn fsock tn tsock).links.filter (fun l => linkReplaces l tn' tsock')) =
      st.links.filter (fun l => linkReplaces l tn' tsock') := by
  rw [links_addLink, List.filter_append, List.filter_filter]
  have hx : linkReplaces ⟨fn, fsock, tn, tsock⟩ tn' tsock' = false := by
    rw [linkReplaces_mk]
    rcases h with h | h
    · have : (tn == tn') = false := by simp [Ne.symm h]
      simp [this]
    · have : (tsock == tsock') = false := by simp [Ne.symm h]
      simp [this]
  have hcongr : st.links.filter (fun l => linkReplaces l tn' tsock' && !(linkReplaces l tn tsock)) =
      st.links.filter (fun l => linkReplaces l tn' tsock') := by
    apply List.filter_congr
    intro l _
    cases hb : linkReplaces l tn tsock with
    | false => simp
    | true =>
      have hb' : l.to_node = tn ∧ l.to_socket = tsock := by
        simpa [linkReplaces] using hb
      have hfalse : linkReplaces l tn' tsock' = false := by
        rw [linkReplaces, hb'.1, hb'.2]
        rcases h with h | h
        · rw [beq_eq_false_iff_ne.2 (Ne.symm h), Bool.false_and]
        · rw [beq_eq_false_iff_ne.2 (Ne.symm h), Bool.and_false]
      simp [hfalse]
  rw [hcongr]
  simp [List.filter_cons, hx]

/-- The link just created by `links.new` is present afterwards. -/
theorem mem_links_addLink_self (st : SceneState) (fn : Nat) (fsock : String) (tn : Nat) (tsock : String) :
    (⟨fn, fsock, tn, tsock⟩ : Link) ∈ (addLink st fn fsock tn tsock).links := by
  rw [links_addLink]
  exact List.mem_append_right _ (List.mem_singleton.2 rfl)

/-- A link terminating elsewhere survives `links.new`. -/
theorem mem_links_addLink_of {st : SceneState} {l : Link} (fn : Nat) (fsock : String)
    (tn : Nat) (tsock : String) (h : l ∈ st.links) (hne : linkReplaces l tn tsock = false) :
    l ∈ (addLink st fn fsock tn tsock).links := by
  rw [links_addLink]
  exact List.mem_append_left _ (List.mem_filter.2 ⟨h, by simp [hne]⟩)

theorem mem_nodes_addNode_of {st : SceneState} {n : Node} (m : Node) (h : n ∈ st.nodes) :
    n ∈ (addNode st m).nodes := by
  rw [nodes_addNode]; exact List.mem_append_left _ h

theorem mem_nodes_addNode_self (st : SceneState) (n : Node) : n ∈ (addNode st n).nodes := by
  rw [nodes_addNode]; exact List.mem_append_right _ (List.mem_singleton.2 rfl)

theorem updList_getElem? {α : Type} (l : List α) (i : Nat) (f : α → α) :
    (updList l i f)[i]? = (l[i]?).map f := by
  induction l generalizing i with
  | nil => simp [updList]
  | cons a l ih =>
    cases i with
    | zero => simp [updList]
    | succ j => simpa [updList] using ih j

theorem images_setImageColorspace (st : SceneState) (i : Nat) (cs : String) :
    (setImageColorspace st i cs).images = updList st.images i (fun img => { img with colorspace := cs }) := rfl

theorem nodes_setImageColorspace (st : SceneState) (i : Nat) (cs : String) :
    (setImageColorspace st i cs).nodes = st.nodes := rfl

theorem links_setImageColorspace (st : SceneState) (i : Nat) (cs : String) :
    (setImageColorspace st i cs).links = st.links := rfl

/-- A lone principled BSDF node, id 0. -/
def prinNode : Node := { id := 0, type := "BSDF_PRINCIPLED" }

/-- A material `Mat` whose graph holds exactly the principled node and no
links. -/
def stBase : SceneState :=
  { material := { name := "Mat", node_tree := { nodes := [prinNode], links := [] } }
    images := [], nextNodeId := 1 }

/-- A directory holding only `Mat_nrm.png`. -/
def fsNrm : FileSystem := { listing := some ["Mat_nrm.png"], pixelsOf := fun _ => [] }

/-- A material whose graph is empty: no principled node is found. -/
def stNoP : SceneState :=
  { material := { name := "Mat", node_tree := { nodes := [], links := [] } }
    images := [], nextNodeId := 0 }

/-- An empty (but listable) directory. -/
def fsEmpty : FileSystem := { listing := some [], pixelsOf := fun _ => [] }

/-- Claim C1.  The claim says the local variable holding the reused normal-map
node is explicitly initialized to none before the link search, so that with a
resolved `_nrm` texture and no existing link into the principled `Normal`
input the operation falls through to creating a new normal-map node.  The
source contains no such initialization: on the failing input below (a `_nrm`
file resolves, the graph has no links at all), the `if not normal_map_node`
read after the empty search raises `UnboundLocalError` — the code slips where
the spec states the intended safe behavior. -/
theorem import_normal_unbound_on_missing_link :
    (mkProcessor stBase "/t").principled_node = some 0 ∧
    find_texture_file fsNrm.listing "/t" (mkProcessor stBase "/t").base_name "_nrm" =
      some "/t/Mat_nrm.png" ∧
    stBase.links.filter (toPrincipledNormal (mkProcessor stBase "/t")) = [] ∧
    import_normal fsNrm (mkProcessor stBase "/t") stBase = .error .unboundLocal :=
  ⟨rfl, rfl, rfl, rfl⟩

/-- Claim C2 (amended): when no principled BSDF node was cached,
`import_emission` completes as a safe no-op and the linking helper no-ops on a
falsy node; `import_normal` and `import_second_shader` complete without error
only when their textures fail to resolve; and `import_second_alb`
unconditionally dereferences the missing principled node and raises an
attribute error — so not every dependent operation is a safe no-op. -/
theorem missing_principled_partial_safety (fs : FileSystem) (mp : MaterialProcessor)
    (st : SceneState) (input_name : String) (hp : mp.principled_node = none) :
    import_emission fs mp st = .ok st ∧
    link_texture_principled_node mp st none input_name = .ok st ∧
    (find_texture_file fs.listing mp.file_path mp.base_name "_nrm" = none →
      import_normal fs mp st = .ok st) ∧
    (find_texture_file fs.listing mp.file_path mp.base_name "_trm" = none →
      find_texture_file fs.listing mp.file_path mp.base_name "_thc" = none →
      import_second_shader fs mp st = .ok st) ∧
    import_second_alb fs mp st = .error .attributeError := by
  refine ⟨?_, rfl, ?_, ?_, ?_⟩
  · simp [import_emission, hp]
  · intro h
    simp [import_normal, import_texture, h]
  · intro h1 h2
    simp [import_second_shader, import_texture, h1, h2]
  · simp [import_second_alb, hp]

theorem missing_principled_partial_safety_witness :
    import_emission fsEmpty (mkProcessor stNoP "/t") stNoP = .ok stNoP ∧
    import_normal fsEmpty (mkProcessor stNoP "/t") stNoP = .ok stNoP ∧
    import_second_shader fsEmpty (mkProcessor stNoP "/t") stNoP = .ok stNoP ∧
    import_second_alb fsEmpty (mkProcessor stNoP "/t") stNoP = .error .attributeError := by
  have h := missing_principled_partial_safety fsEmpty (mkProcessor stNoP "/t") stNoP
    "Base Color" rfl
  exact ⟨h.1, h.2.2.1 rfl, h.2.2.2.1 rfl rfl, h.2.2.2.2⟩

/-- Claim C2, counterexample: a material with no principled BSDF node, an
empty readable directory — `import_second_alb` raises an attribute error
instead of no-opping. -/
theorem second_alb_none_principled_raises :
    (mkProcessor stNoP "/t").principled_node = none ∧
    import_second_alb fsEmpty (mkProcessor stNoP "/t") stNoP = .error .attributeError :=
  ⟨rfl, rfl⟩

/-- A graph whose principled node has an image-texture node wired into its
`Emission Color` input, but the texture node carries no image. -/
def stEmNoImg : SceneState :=
  { material := { name := "Mat", node_tree :=
      { nodes := [prinNode, { id := 1, type := "TEX_IMAGE", image := none }]
        links := [{ from_node := 1, from_socket := "Color", to_node := 0, to_socket := "Emission Color" }] } }
    images := [], nextNodeId := 2 }

/-- Claim C10: when the emission link search finds an image-texture node wired
into the principled `Emission Color` input but that node has no image (and no
`_emm`/`_emi` file resolves), `import_emission` is a complete no-op: the state
is returned unchanged. -/
theorem import_emission_imageless_noop (fs : FileSystem) (mp : MaterialProcessor)
    (st : SceneState) (p : Nat) (en : Node)
    (hp : mp.principled_node = some p)
    (hfound : findEmissionSource st p = some en)
    (himg : en.image = none)
    (_hemm : find_texture_file fs.listing mp.file_path mp.base_name "_emm" = none)
    (_hemi : find_texture_file fs.listing mp.file_path mp.base_name "_emi" = none) :
    import_emission fs mp st = .ok st := by
  simp [import_emission, hp, hfound, himg]

theorem import_emission_imageless_noop_witness :
    import_emission fsEmpty (mkProcessor stEmNoImg "/t") stEmNoImg = .ok stEmNoImg :=
  import_emission_imageless_noop fsEmpty (mkProcessor stEmNoImg "/t") stEmNoImg 0
    { id := 1, type := "TEX_IMAGE", image := none } rfl rfl rfl rfl rfl

/-- Claim C8: for a material none of whose image-texture nodes carries an
image whose filename contains `_alb`, `_emm` or `_emi` (case-insensitively),
the derived base name is the material name truncated at its first `.`
(`split_head`). -/
theorem base_name_fallback_material (st : SceneState) (fp : String)
    (h : ∀ n ∈ st.material.node_tree.nodes, n.type = "TEX_IMAGE" →
      ∀ iid, n.image = some iid → ∀ img, st.images[iid]? = some img →
        substrIdx (pathBasename img.filepath) "_alb" = none ∧
        substrIdx (pathBasename img.filepath) "_emm" = none ∧
        substrIdx (pathBasename img.filepath) "_emi" = none) :
    (mkProcessor st fp).base_name = split_head st.material.name := by
  have hnone : find_base_texture st.material.node_tree st.images = none := by
    rw [find_base_texture, List.findSome?_eq_none_iff]
    intro n hn
    rw [nodeBaseMatch]
    by_cases hty : n.type = "TEX_IMAGE"
    · rw [if_pos (by simp [hty])]
      cases himg : n.image with
      | none => rfl
      | some iid =>
        cases hget : st.images[iid]? with
        | none => simp [hget]
        | some img =>
          have h3 := h n hn hty iid himg img hget
          simp [hget, suffixList, List.findSome?_cons, h3.1, h3.2.1, h3.2.2]
    · rw [if_neg (by simp [hty])]
  simp [mkProcessor, hnone, pyOr, find_base_from_material]

/-- A material named `Mat.001` with one texture node whose image filename
matches none of the three suffixes. -/
def stC8 : SceneState :=
  { material := { name := "Mat.001", node_tree :=
      { nodes := [prinNode, { id := 1, type := "TEX_IMAGE", image := some 0 }], links := [] } }
    images := [{ filepath := "/t/Mat_nrm.png", colorspace := "Non-Color", pixels := [] }]
    nextNodeId := 2 }

theorem base_name_fallback_material_witness :
    (mkProcessor stC8 "/t").base_name = split_head stC8.material.name ∧
    split_head stC8.material.name = "Mat" :=
  ⟨base_name_fallback_material stC8 "/t" (by decide), rfl⟩

/-- Failure characterization of the inner `find_texture_file`: resolution
yields nothing exactly when the directory cannot be listed or no listed file
matches the expected name case-insensitively. -/
theorem find_texture_file_none_iff (listing : Option (List String)) (d b sfx : String) :
    find_texture_file listing d b sfx = none ↔
      (listing = none ∨ ∀ files, listing = some files → ∀ f ∈ files,
        pyLower f ≠ pyLower (b ++ sfx ++ ".png")) := by
  cases listing with
  | none => simp [find_texture_file]
  | some files =>
    have hmain : ((files.find? (fun f => pyLower f == pyLower (b ++ sfx ++ ".png"))).map
        (fun f => d ++ "/" ++ f) = none) ↔
        ∀ f ∈ files, pyLower f ≠ pyLower (b ++ sfx ++ ".png") := by
      rw [Option.map_eq_none', List.find?_eq_none]
      constructor
      · intro hq f hf
        simpa using hq f hf
      · intro hq f hf
        simpa using hq f hf
    rw [find_texture_file]
    constructor
    · intro hf
      right
      intro files' heq
      cases heq
      exact hmain.1 hf
    · intro hf
      rcases hf with hf | hf
      · cases hf
      · exact hmain.2 (hf files rfl)

/-- Success characterization of `find_texture_file`: the returned path is the
directory joined with a listed file whose name matches case-insensitively. -/
theorem find_texture_file_some {listing : Option (List String)} {d b sfx pth : String}
    (h : find_texture_file listing d b sfx = some pth) :
    ∃ files, listing = some files ∧ ∃ f ∈ files,
      pyLower f = pyLower (b ++ sfx ++ ".png") ∧ pth = d ++ "/" ++ f := by
  cases listing with
  | none => simp [find_texture_file] at h
  | some files =>
    rw [find_texture_file] at h
    cases hq : files.find? (fun f => pyLower f == pyLower (b ++ sfx ++ ".png")) with
    | none => rw [hq] at h; cases h
    | some f =>
      rw [hq] at h
      have hpth : pth = d ++ "/" ++ f := by
        have : some (d ++ "/" ++ f) = some pth := h
        cases this
        rfl
      exact ⟨files, rfl, f, List.mem_of_find?_eq_some hq,
        by simpa using List.find?_some hq, hpth⟩

/-- Claim C5: `import_texture` returns no node exactly when the directory
cannot be listed or no listed file matches `base ++ suffix ++ ".png"`
case-insensitively; in that case the state is unchanged (no image loaded, no
node created).  Otherwise exactly one texture node is appended, holding a
freshly loaded registry image from the matched file, whose color space is
`Non-Color` exactly when the flag is set; links are untouched. -/
theorem import_texture_contract (fs : FileSystem) (mp : MaterialProcessor) (st : SceneState)
    (suffix : String) (non_color : Bool) :
    ((import_texture fs mp st suffix non_color).2 = none ↔
      (fs.listing = none ∨ ∀ files, fs.listing = some files → ∀ f ∈ files,
        pyLower f ≠ pyLower (mp.base_name ++ suffix ++ ".png"))) ∧
    ((import_texture fs mp st suffix non_color).2 = none →
      (import_texture fs mp st suffix non_color).1 = st) ∧
    (∀ n, (import_texture fs mp st suffix non_color).2 = some n →
      n.type = "TEX_IMAGE" ∧ n.image = some st.images.length ∧
      (import_texture fs mp st suffix non_color).1.nodes = st.nodes ++ [n] ∧
      (import_texture fs mp st suffix non_color).1.links = st.links ∧
      ∃ img, (import_texture fs mp st suffix non_color).1.images = st.images ++ [img] ∧
        (img.colorspace = "Non-Color" ↔ non_color = true) ∧
        ∃ files, fs.listing = some files ∧ ∃ f ∈ files,
          pyLower f = pyLower (mp.base_name ++ suffix ++ ".png") ∧
          img.filepath = mp.file_path ++ "/" ++ f) := by
  cases hf : find_texture_file fs.listing mp.file_path mp.base_name suffix with
  | none =>
    have hred : import_texture fs mp st suffix non_color = (st, none) := by
      rw [import_texture, hf]
    refine ⟨?_, fun _ => by rw [hred], fun n hn => by rw [hred] at hn; cases hn⟩
    rw [hred]
    constructor
    · intro _
      exact (find_texture_file_none_iff _ _ _ _).1 hf
    · intro _
      rfl
  | some pth =>
    have hred : import_texture fs mp st suffix non_color =
        (addImage (addNode st (texNode st)) (texImg fs pth non_color), some (texNode st)) := by
      rw [import_texture, hf]
    refine ⟨?_, ?_, ?_⟩
    · rw [hred]
      constructor
      · intro hcontra
        cases hcontra
      · intro hrhs
        exfalso
        have := (find_texture_file_none_iff fs.listing mp.file_path mp.base_name suffix).2 hrhs
        rw [hf] at this
        cases this
    · intro h2
      rw [hred] at h2
      cases h2
    · intro n hn
      rw [hred] at hn
      have hneq : n = texNode st := by
        cases hn
        rfl
      subst hneq
      refine ⟨rfl, rfl, by rw [hred]; rfl, by rw [hred]; rfl, ?_⟩
      refine ⟨texImg fs pth non_color, by rw [hred]; rfl, ?_, ?_⟩
      · cases non_color <;> simp [texImg]
      · rcases find_texture_file_some hf with ⟨files, hfiles, f, hmem, hlow, hpth⟩
        exact ⟨files, hfiles, f, hmem, hlow, by rw [texImg, hpth]⟩

theorem import_texture_contract_witness :
    ∃ n, (import_texture fsNrm (mkProcessor stBase "/t") stBase "_nrm" true).2 = some n ∧
      n.type = "TEX_IMAGE" ∧ n.image = some 0 := by
  have h := (import_texture_contract fsNrm (mkProcessor stBase "/t") stBase "_nrm" true).2.2
  refine ⟨{ id := 1, type := "TEX_IMAGE", image := some 0 }, rfl, ?_⟩
  have h2 := h { id := 1, type := "TEX_IMAGE", image := some 0 } rfl
  exact ⟨h2.1, h2.2.1⟩

/-- Claim C9: calling `import_texture` twice with the same suffix (the file
resolving) creates two distinct texture nodes, each holding a separately
loaded registry image from the same resolved path — no deduplication. -/
theorem import_texture_no_dedup (fs : FileSystem) (mp : MaterialProcessor) (st : SceneState)
    (suffix : String) (non_color : Bool) (pth : String)
    (hfind : find_texture_file fs.listing mp.file_path mp.base_name suffix = some pth) :
    ∃ n1 n2,
      (import_texture fs mp st suffix non_color).2 = some n1 ∧
      (import_texture fs mp (import_texture fs mp st suffix non_color).1 suffix non_color).2 =
        some n2 ∧
      n1.id ≠ n2.id ∧ n1.type = "TEX_IMAGE" ∧ n2.type = "TEX_IMAGE" ∧
      ∃ i1 i2 img1 img2, n1.image = some i1 ∧ n2.image = some i2 ∧ i1 ≠ i2 ∧
        (import_texture fs mp (import_texture fs mp st suffix non_color).1 suffix
          non_color).1.images[i1]? = some img1 ∧
        (import_texture fs mp (import_texture fs mp st suffix non_color).1 suffix
          non_color).1.images[i2]? = some img2 ∧
        img1.filepath = pth ∧ img2.filepath = pth := by
  have hred1 : import_texture fs mp st suffix non_color =
      (addImage (addNode st (texNode st)) (texImg fs pth non_color), some (texNode st)) := by
    rw [import_texture, hfind]
  rw [hred1]
  rw [import_texture, hfind]
  have himgs1 : (addImage (addNode st (texNode st)) (texImg fs pth non_color)).images =
      st.images ++ [texImg fs pth non_color] := rfl
  refine ⟨texNode st,
    texNode (addImage (addNode st (texNode st)) (texImg fs pth non_color)),
    rfl, rfl, ?_, rfl, rfl,
    st.images.length,
    (addImage (addNode st (texNode st)) (texImg fs pth non_color)).images.length,
    texImg fs pth non_color, texImg fs pth non_color,
    rfl, rfl, ?_, ?_, ?_, rfl, rfl⟩
  · show st.nextNodeId ≠ st.nextNodeId + 1
    omega
  · rw [himgs1]
    simp
  · show ((st.images ++ [texImg fs pth non_color]) ++
        [texImg fs pth non_color])[st.images.length]? = some (texImg fs pth non_color)
    rw [List.getElem?_append_left (by simp)]
    exact List.getElem?_concat_length _ _
  · show ((addImage (addNode st (texNode st)) (texImg fs pth non_color)).images ++
        [texImg fs pth non_color])[(addImage (addNode st (texNode st))
          (texImg fs pth non_color)).images.length]? = some (texImg fs pth non_color)
    exact List.getElem?_concat_length _ _

theorem import_texture_no_dedup_witness :
    ∃ n1 n2,
      (import_texture fsNrm (mkProcessor stBase "/t") stBase "_nrm" true).2 = some n1 ∧
      (import_texture fsNrm (mkProcessor stBase "/t")
        (import_texture fsNrm (mkProcessor stBase "/t") stBase "_nrm" true).1 "_nrm" true).2 =
        some n2 ∧
      n1.id ≠ n2.id ∧ n1.type = "TEX_IMAGE" ∧ n2.type = "TEX_IMAGE" ∧
      ∃ i1 i2 img1 img2, n1.image = some i1 ∧ n2.image = some i2 ∧ i1 ≠ i2 ∧
        (import_texture fsNrm (mkProcessor stBase "/t")
          (import_texture fsNrm (mkProcessor stBase "/t") stBase "_nrm" true).1 "_nrm"
          true).1.images[i1]? = some img1 ∧
        (import_texture fsNrm (mkProcessor stBase "/t")
          (import_texture fsNrm (mkProcessor stBase "/t") stBase "_nrm" true).1 "_nrm"
          true).1.images[i2]? = some img2 ∧
        img1.filepath = "/t/Mat_nrm.png" ∧ img2.filepath = "/t/Mat_nrm.png" :=
  import_texture_no_dedup fsNrm (mkProcessor stBase "/t") stBase "_nrm" true
    "/t/Mat_nrm.png" rfl

/-- A directory holding only `Mat_thc.png` (no `_trm`). -/
def fsThc : FileSystem := { listing := some ["Mat_thc.png"], pixelsOf := fun _ => [] }

/-- Claim C4 (amended): when `_trm` does not resolve, `import_second_shader`
builds none of the shader rig and adds no links; the resulting state is
exactly the state after the unconditional `_thc` import attempt — unchanged
when `_thc` does not resolve either, but with one extra (unused) `_thc`
texture node and loaded image when it does. -/
theorem second_shader_trm_absent_effect (fs : FileSystem) (mp : MaterialProcessor)
    (st : SceneState)
    (htrm : find_texture_file fs.listing mp.file_path mp.base_name "_trm" = none) :
    import_second_shader fs mp st = .ok (import_texture fs mp st "_thc" true).1 ∧
    (import_texture fs mp st "_thc" true).1.links = st.links ∧
    (find_texture_file fs.listing mp.file_path mp.base_name "_thc" = none →
      import_second_shader fs mp st = .ok st) ∧
    (∀ pth, find_texture_file fs.listing mp.file_path mp.base_name "_thc" = some pth →
      ∃ n : Node, n.type = "TEX_IMAGE" ∧
        (import_texture fs mp st "_thc" true).1.nodes = st.nodes ++ [n]) := by
  refine ⟨?_, ?_, ?_, ?_⟩
  · rw [import_second_shader, import_texture, htrm]
  · cases hthc : find_texture_file fs.listing mp.file_path mp.base_name "_thc" with
    | none => rw [import_texture, hthc]
    | some pth => rw [import_texture, hthc]; rfl
  · intro hthc
    rw [import_second_shader, import_texture, htrm, import_texture, hthc]
  · intro pth hthc
    rw [import_texture, hthc]
    exact ⟨{ id := st.nextNodeId, type := "TEX_IMAGE", image := some st.images.length },
      rfl, rfl⟩

theorem second_shader_trm_absent_effect_witness :
    import_second_shader fsThc (mkProcessor stBase "/t") stBase =
      .ok (import_texture fsThc (mkProcessor stBase "/t") stBase "_thc" true).1 ∧
    (import_texture fsThc (mkProcessor stBase "/t") stBase "_thc" true).1.links =
      stBase.links := by
  have h := second_shader_trm_absent_effect fsThc (mkProcessor stBase "/t") stBase rfl
  exact ⟨h.1, h.2.1⟩

/-- Claim C4, counterexample: with `_trm` absent but `Mat_thc.png` present,
`import_second_shader` does NOT leave the node graph unchanged — a `_thc`
texture node is created (the node count grows from 1 to 2). -/
theorem second_shader_thc_leak :
    find_texture_file fsThc.listing "/t" (mkProcessor stBase "/t").base_name "_trm" = none ∧
    stBase.nodes.length = 1 ∧
    (import_second_shader fsThc (mkProcessor stBase "/t") stBase).toOption.map
      (fun s => s.nodes.length) = some 2 :=
  ⟨rfl, rfl, rfl⟩

theorem matchesAt_length_le : ∀ (pat s : List Char), matchesAt pat s = true → pat.length ≤ s.length
  | [], _, _ => Nat.zero_le _
  | _ :: _, [], h => by cases h
  | p :: ps, c :: cs, h => by
    rw [matchesAt] at h
    have h2 := Bool.and_eq_true_iff.1 h
    have := matchesAt_length_le ps cs h2.2
    simpa using Nat.succ_le_succ this

theorem substrIdxAux_some_bound (pat : List Char) :
    ∀ (s : List Char) (i k : Nat), substrIdxAux pat s i = some k →
      i ≤ k ∧ k + pat.length ≤ i + s.length
  | [], i, k, h => by
    rw [substrIdxAux] at h
    by_cases hm : matchesAt pat [] = true
    · rw [if_pos hm] at h
      cases h
      exact ⟨Nat.le_refl _, by simpa using matchesAt_length_le pat [] hm⟩
    · rw [if_neg hm] at h
      cases h
  | c :: rest, i, k, h => by
    rw [substrIdxAux] at h
    by_cases hm : matchesAt pat (c :: rest) = true
    · rw [if_pos hm] at h
      cases h
      exact ⟨Nat.le_refl _, by
        have := matchesAt_length_le pat (c :: rest) hm
        omega⟩
    · rw [if_neg hm] at h
      have := substrIdxAux_some_bound pat rest (i + 1) k h
      constructor
      · omega
      · simp only [List.length_cons]
        omega

/-- A match of `pat` (via `substrIdx`) at index `k` in `s` implies
`k + pat.length ≤ s.length`. -/
theorem substrIdx_some_bound {s pat : String} {k : Nat} (h : substrIdx s pat = some k) :
    k + pat.toList.length ≤ s.toList.length := by
  have := (substrIdxAux_some_bound (lowerChars pat) (lowerChars s) 0 k h).2
  simpa [lowerChars] using this

/-- Claim C3 (amended): when the FIRST image-texture node (in node-iteration
order) whose image filename contains one of `_alb`/`_emm`/`_emi` is one whose
filename contains `_alb` (patterns are tried in that order within a node, so
`_alb` wins inside the node), and the filename prefix before the first `_alb`
occurrence is non-empty, the derived base name is exactly that prefix,
independent of the material's name.  (When an earlier node matches another
suffix, or the prefix is empty — Python's falsy `""` — the claim as stated
fails; see the counterexample.) -/
theorem base_name_from_first_alb_node (st : SceneState) (fp : String)
    (pre post : List Node) (n : Node) (iid : Nat) (img : Image) (k : Nat)
    (hnodes : st.material.node_tree.nodes = pre ++ n :: post)
    (hpre : ∀ m ∈ pre, nodeBaseMatch st.images m = none)
    (hty : n.type = "TEX_IMAGE") (himg : n.image = some iid)
    (hget : st.images[iid]? = some img)
    (hk : substrIdx (pathBasename img.filepath) "_alb" = some k)
    (hk0 : 0 < k) :
    (mkProcessor st fp).base_name = strTake (pathBasename img.filepath) k := by
  have hfind : find_base_texture st.material.node_tree st.images =
      some (strTake (pathBasename img.filepath) k) := by
    rw [find_base_texture, hnodes, List.findSome?_append]
    have hprenone : pre.findSome? (nodeBaseMatch st.images) = none :=
      List.findSome?_eq_none_iff.2 hpre
    rw [hprenone]
    have hn : nodeBaseMatch st.images n = some (strTake (pathBasename img.filepath) k) := by
      rw [nodeBaseMatch, if_pos (by simp [hty]), himg]
      simp [hget, suffixList, List.findSome?_cons, hk]
    simp [List.findSome?_cons, hn]
  have hne : strTake (pathBasename img.filepath) k ≠ "" := by
    have hbound := substrIdx_some_bound hk
    have hlen4 : ("_alb" : String).toList.length = 4 := rfl
    rw [hlen4] at hbound
    rw [strTake]
    intro hcontra
    have hdata : ((pathBasename img.filepath).toList.take k) = [] := by
      have := congrArg String.toList hcontra
      simpa using this
    rw [List.take_eq_nil_iff] at hdata
    rcases hdata with hdata | hdata
    · omega
    · rw [hdata] at hbound
      simp at hbound
  rw [mkProcessor]
  simp only [hfind, pyOr]
  rw [if_neg hne]

/-- A material whose first matching texture node is an `_alb` one with a
non-empty prefix. -/
def stC3w : SceneState :=
  { material := { name := "ignored", node_tree :=
      { nodes := [prinNode, { id := 1, type := "TEX_IMAGE", image := some 0 }], links := [] } }
    images := [{ filepath := "/t/Char_alb.png", colorspace := "sRGB", pixels := [] }]
    nextNodeId := 2 }

theorem base_name_from_first_alb_node_witness :
    (mkProcessor stC3w "/t").base_name = strTake (pathBasename "/t/Char_alb.png") 4 ∧
    strTake (pathBasename "/t/Char_alb.png") 4 = "Char" :=
  ⟨base_name_from_first_alb_node stC3w "/t" [prinNode] []
      { id := 1, type := "TEX_IMAGE", image := some 0 } 0
      { filepath := "/t/Char_alb.png", colorspace := "sRGB", pixels := [] } 4
      rfl (by decide) rfl rfl rfl rfl (by decide),
    rfl⟩

/-- Two texture nodes: the first matches `_emm`, the second `_alb`. -/
def stC3a : SceneState :=
  { material := { name := "mat", node_tree :=
      { nodes := [{ id := 0, type := "TEX_IMAGE", image := some 0 },
                  { id := 1, type := "TEX_IMAGE", image := some 1 }], links := [] } }
    images := [{ filepath := "x_emm.png", colorspace := "sRGB", pixels := [] },
               { filepath := "y_alb.png", colorspace := "sRGB", pixels := [] }]
    nextNodeId := 2 }

/-- A single texture node whose filename starts with `_alb`, so the prefix
before the match is empty. -/
def stC3b : SceneState :=
  { material := { name := "mat", node_tree :=
      { nodes := [{ id := 0, type := "TEX_IMAGE", image := some 0 }], links := [] } }
    images := [{ filepath := "_alb.png", colorspace := "sRGB", pixels := [] }]
    nextNodeId := 1 }

/-- Claim C3, counterexample.  (a) `stC3a` has an image-texture node whose
filename `y_alb.png` contains `_alb` with prefix `y`, yet the derived base
name is `x`: an earlier node matching `_emm` wins the scan.  (b) `stC3b` has a
node whose filename `_alb.png` contains `_alb` with (empty) prefix `""`, yet
the derived base name is the material name `mat`: Python's `or` discards the
falsy empty prefix.  In both cases BaseName differs from the filename prefix
before the `_alb` match, and in (b) it depends on the material's name. -/
theorem base_texture_alb_mismatch :
    (substrIdx (pathBasename "y_alb.png") "_alb" = some 1 ∧
      strTake (pathBasename "y_alb.png") 1 = "y" ∧
      (mkProcessor stC3a "/t").base_name = "x" ∧ "x" ≠ "y") ∧
    (substrIdx (pathBasename "_alb.png") "_alb" = some 0 ∧
      strTake (pathBasename "_alb.png") 0 = "" ∧
      (mkProcessor stC3b "/t").base_name = "mat" ∧ "mat" ≠ "") :=
  ⟨⟨rfl, rfl, rfl, by decide⟩, ⟨rfl, rfl, rfl, by decide⟩⟩

theorem getD_cons4 (r g b a d : ℚ) (rest : List ℚ) (m : Nat) :
    (r :: g :: b :: a :: rest).getD (m + 4) d = rest.getD m d := by
  have e : m + 4 = (((m + 1) + 1) + 1) + 1 := by omega
  rw [e, List.getD_cons_succ, List.getD_cons_succ, List.getD_cons_succ, List.getD_cons_succ]

/-- The pixel loop returns true exactly when every RGBA quadruple has equal
R, G and B channels (for well-formed flat lists, whose length is a multiple
of 4). -/
theorem grayscalePixels_iff : ∀ (l : List ℚ), l.length % 4 = 0 →
    (grayscalePixels l = true ↔ ∀ i, 4 * i + 2 < l.length →
      (l.getD (4 * i) 0 = l.getD (4 * i + 1) 0 ∧ l.getD (4 * i + 1) 0 = l.getD (4 * i + 2) 0))
  | [], _ => by
    constructor
    · intro _ i hi
      simp at hi
    · intro _
      rfl
  | [r], h => by simp at h
  | [r, g], h => by simp at h
  | [r, g, b], h => by simp at h
  | r :: g :: b :: a :: rest, h => by
    have hrest : rest.length % 4 = 0 := by
      simp only [List.length_cons] at h
      omega
    have ih := grayscalePixels_iff rest hrest
    rw [grayscalePixels]
    by_cases hcol : r ≠ g ∨ g ≠ b ∨ b ≠ r
    · rw [if_pos hcol]
      constructor
      · intro hfalse
        cases hfalse
      · intro hall
        exfalso
        have h0 := hall 0 (by simp only [List.length_cons]; omega)
        rcases hcol with hc | hc | hc
        · exact hc h0.1
        · exact hc h0.2
        · exact hc (h0.2.symm.trans h0.1.symm)
    · rw [if_neg hcol]
      push_neg at hcol
      obtain ⟨hrg, hgb, _⟩ := hcol
      rw [ih]
      have e0 : ∀ j : Nat, 4 * (j + 1) = 4 * j + 4 := by intro j; ring
      have e1 : ∀ j : Nat, 4 * (j + 1) + 1 = (4 * j + 1) + 4 := by intro j; ring
      have e2 : ∀ j : Nat, 4 * (j + 1) + 2 = (4 * j + 2) + 4 := by intro j; ring
      constructor
      · intro htail i hi
        cases i with
        | zero => exact ⟨hrg, hgb⟩
        | succ j =>
          have hj : 4 * j + 2 < rest.length := by
            simp only [List.length_cons] at hi
            omega
          have hr := htail j hj
          rw [e1 j, e2 j, e0 j, getD_cons4, getD_cons4, getD_cons4]
          exact hr
      · intro hall j hj
        have hbound : 4 * (j + 1) + 2 < (r :: g :: b :: a :: rest).length := by
          simp only [List.length_cons]
          omega
        have hr := hall (j + 1) hbound
        rw [e1 j, e2 j, e0 j, getD_cons4, getD_cons4, getD_cons4] at hr
        exact hr

/-- Claim C7: the grayscale classifier returns true iff every sampled RGBA
pixel has equal R, G, B channels (alpha ignored); and when `import_emission`
reaches an emission texture node carrying image `img`, it forces that image's
color space to `Non-Color` exactly when the classifier holds, leaving the
color space untouched otherwise. -/
theorem grayscale_and_emission_colorspace (img : Image) :
    (img.pixels.length % 4 = 0 →
      (is_grayscale_image img = true ↔ ∀ i, 4 * i + 2 < img.pixels.length →
        (img.pixels.getD (4 * i) 0 = img.pixels.getD (4 * i + 1) 0 ∧
         img.pixels.getD (4 * i + 1) 0 = img.pixels.getD (4 * i + 2) 0))) ∧
    (∀ (fs : FileSystem) (mp : MaterialProcessor) (st : SceneState) (p : Nat)
      (en : Node) (iid : Nat),
      mp.principled_node = some p → findEmissionSource st p = some en →
      en.image = some iid → st.images[iid]? = some img →
      ∃ st', import_emission fs mp st = .ok st' ∧
        st'.images[iid]? = some { img with
          colorspace := if is_grayscale_image img then "Non-Color" else img.colorspace }) := by
  constructor
  · intro h4
    exact grayscalePixels_iff img.pixels h4
  · intro fs mp st p en iid hp hfound himg hget
    rw [import_emission, hp]
    simp only [hfound, himg, hget]
    by_cases hgray : is_grayscale_image img = true
    · rw [if_pos hgray, if_pos hgray]
      cases hbc : (addNode (setImageColorspace st iid "Non-Color")
          { id := (setImageColorspace st iid "Non-Color").nextNodeId, type := "MIX_RGB",
            blend_type := "MULTIPLY", fac_default := some 1 }).links.find?
            (fun l => linkReplaces l p "Base Color") with
      | none =>
        refine ⟨_, rfl, ?_⟩
        show (setImageColorspace st iid "Non-Color").images[iid]? = _
        rw [images_setImageColorspace, updList_getElem?, hget]
        rfl
      | some lnk =>
        refine ⟨_, rfl, ?_⟩
        show (setImageColorspace st iid "Non-Color").images[iid]? = _
        rw [images_setImageColorspace, updList_getElem?, hget]
        rfl
    · rw [if_neg hgray, if_neg hgray]
      cases hbc : (addNode st
          { id := st.nextNodeId, type := "MIX_RGB",
            blend_type := "MULTIPLY", fac_default := some 1 }).links.find?
            (fun l => linkReplaces l p "Base Color") with
      | none => exact ⟨_, rfl, hget⟩
      | some lnk => exact ⟨_, rfl, hget⟩

/-- An emission image whose sampled pixels are all gray. -/
def imgEm : Image :=
  { filepath := "/t/e.png", colorspace := "sRGB", pixels := [0, 0, 0, 1, 2, 2, 2, 1] }

/-- A graph with the principled node's `Emission Color` input already driven
by a texture node holding `imgEm`. -/
def stEm : SceneState :=
  { material := { name := "Mat", node_tree :=
      { nodes := [prinNode, { id := 1, type := "TEX_IMAGE", image := some 0 }]
        links := [{ from_node := 1, from_socket := "Color", to_node := 0,
                    to_socket := "Emission Color" }] } }
    images := [imgEm], nextNodeId := 2 }

theorem grayscale_and_emission_colorspace_witness :
    is_grayscale_image imgEm = true ∧
    ∃ st', import_emission fsEmpty (mkProcessor stEm "/t") stEm = .ok st' ∧
      st'.images[0]? = some { filepath := "/t/e.png", colorspace := "Non-Color",
                              pixels := [0, 0, 0, 1, 2, 2, 2, 1] } := by
  refine ⟨by decide, ?_⟩
  have h := (grayscale_and_emission_colorspace imgEm).2 fsEmpty (mkProcessor stEm "/t") stEm 0
    { id := 1, type := "TEX_IMAGE", image := some 0 } 0 rfl rfl rfl rfl
  exact h

theorem linkReplaces_ne_socket (l : Link) (tn : Nat) (tsock : String)
    (h : l.to_socket ≠ tsock) : linkReplaces l tn tsock = false := by
  rw [linkReplaces, beq_eq_false_iff_ne.2 h, Bool.and_false]

/-- What `finishShaderRig` guarantees when a `_thc` node is supplied: the
material-output's `Surface` input is driven exactly by the add shader, the
add shader combines the principled BSDF output with the mix-shader output,
and the mix-shader's `Fac` input is driven exactly by the `_thc` node's Color
output (its fixed default 1.0 notwithstanding); images are untouched. -/
theorem finishShaderRig_spec (st9 : SceneState) (translucentId : Nat) (thc : Node) (p : Nat) :
    ∃ outId addId mixSId,
      (∃ onode ∈ (finishShaderRig st9 translucentId (some thc) p).nodes,
        onode.id = outId ∧ onode.type = "OUTPUT_MATERIAL") ∧
      (finishShaderRig st9 translucentId (some thc) p).links.filter
          (fun l => linkReplaces l outId "Surface") = [⟨addId, "Shader", outId, "Surface"⟩] ∧
      (∃ anode ∈ (finishShaderRig st9 translucentId (some thc) p).nodes,
        anode.id = addId ∧ anode.type = "ADD_SHADER") ∧
      (⟨p, "BSDF", addId, "Shader0"⟩ : Link) ∈
        (finishShaderRig st9 translucentId (some thc) p).links ∧
      (⟨mixSId, "Shader", addId, "Shader1"⟩ : Link) ∈
        (finishShaderRig st9 translucentId (some thc) p).links ∧
      (∃ mnode ∈ (finishShaderRig st9 translucentId (some thc) p).nodes,
        mnode.id = mixSId ∧ mnode.type = "MIX_SHADER" ∧ mnode.fac_default = some 1) ∧
      (finishShaderRig st9 translucentId (some thc) p).links.filter
          (fun l => linkReplaces l mixSId "Fac") = [⟨thc.id, "Color", mixSId, "Fac"⟩] ∧
      (finishShaderRig st9 translucentId (some thc) p).images = st9.images := by
  simp only [finishShaderRig]
  cases houtf : (addLink (addLink (addNode
      (addLink (addNode st9 { id := st9.nextNodeId, type := "MIX_SHADER", fac_default := some 1 })
        translucentId "BSDF" st9.nextNodeId "Shader1")
      { id := (addLink (addNode st9
          { id := st9.nextNodeId, type := "MIX_SHADER", fac_default := some 1 })
          translucentId "BSDF" st9.nextNodeId "Shader1").nextNodeId, type := "ADD_SHADER" })
      p "BSDF" (addLink (addNode st9
        { id := st9.nextNodeId, type := "MIX_SHADER", fac_default := some 1 })
        translucentId "BSDF" st9.nextNodeId "Shader1").nextNodeId "Shader0")
      st9.nextNodeId "Shader" (addLink (addNode st9
        { id := st9.nextNodeId, type := "MIX_SHADER", fac_default := some 1 })
        translucentId "BSDF" st9.nextNodeId "Shader1").nextNodeId
      "Shader1").nodes.find? (fun n => n.type == "OUTPUT_MATERIAL") with
  | some n =>
    refine ⟨n.id, st9.nextNodeId + 1, st9.nextNodeId, ?_, ?_, ?_, ?_, ?_, ?_, ?_, ?_⟩
    · exact ⟨n, List.mem_of_find?_eq_some houtf, rfl, by simpa using List.find?_some houtf⟩
    · exact (filter_addLink_other _ _ _ _ _ _ _ (Or.inr (by decide))).trans
        (filter_addLink_self _ _ _ _ _)
    · exact ⟨{ id := st9.nextNodeId + 1, type := "ADD_SHADER" },
        List.mem_append_right _ (List.mem_singleton.2 rfl), rfl, rfl⟩
    · exact mem_links_addLink_of _ _ _ _
        (mem_links_addLink_of _ _ _ _
          (mem_links_addLink_of _ _ _ _ (mem_links_addLink_self _ _ _ _ _)
            (linkReplaces_ne_socket _ _ _ (by simp)))
          (linkReplaces_ne_socket _ _ _ (by simp)))
        (linkReplaces_ne_socket _ _ _ (by simp))
    · exact mem_links_addLink_of _ _ _ _
        (mem_links_addLink_of _ _ _ _ (mem_links_addLink_self _ _ _ _ _)
          (linkReplaces_ne_socket _ _ _ (by simp)))
        (linkReplaces_ne_socket _ _ _ (by simp))
    · exact ⟨{ id := st9.nextNodeId, type := "MIX_SHADER", fac_default := some 1 },
        List.mem_append_left _ (List.mem_append_right _ (List.mem_singleton.2 rfl)),
        rfl, rfl, rfl⟩
    · exact filter_addLink_self _ _ _ _ _
    · rfl
  | none =>
    refine ⟨st9.nextNodeId + 2, st9.nextNodeId + 1, st9.nextNodeId,
      ?_, ?_, ?_, ?_, ?_, ?_, ?_, ?_⟩
    · exact ⟨{ id := st9.nextNodeId + 2, type := "OUTPUT_MATERIAL" },
        List.mem_append_right _ (List.mem_singleton.2 rfl), rfl, rfl⟩
    · exact (filter_addLink_other _ _ _ _ _ _ _ (Or.inr (by decide))).trans
        (filter_addLink_self _ _ _ _ _)
    · exact ⟨{ id := st9.nextNodeId + 1, type := "ADD_SHADER" },
        List.mem_append_left _ (List.mem_append_right _ (List.mem_singleton.2 rfl)), rfl, rfl⟩
    · exact mem_links_addLink_of _ _ _ _
        (mem_links_addLink_of _ _ _ _
          (mem_links_addLink_of _ _ _ _ (mem_links_addLink_self _ _ _ _ _)
            (linkReplaces_ne_socket _ _ _ (by simp)))
          (linkReplaces_ne_socket _ _ _ (by simp)))
        (linkReplaces_ne_socket _ _ _ (by simp))
    · exact mem_links_addLink_of _ _ _ _
        (mem_links_addLink_of _ _ _ _ (mem_links_addLink_self _ _ _ _ _)
          (linkReplaces_ne_socket _ _ _ (by simp)))
        (linkReplaces_ne_socket _ _ _ (by simp))
    · exact ⟨{ id := st9.nextNodeId, type := "MIX_SHADER", fac_default := some 1 },
        List.mem_append_left _ (List.mem_append_left _
          (List.mem_append_right _ (List.mem_singleton.2 rfl))),
        rfl, rfl, rfl⟩
    · exact filter_addLink_self _ _ _ _ _
    · rfl

theorem images_finishShaderRig (st9 : SceneState) (tid : Nat) (thcOpt : Option Node) (p : Nat) :
    (finishShaderRig st9 tid thcOpt p).images = st9.images := by
  simp only [finishShaderRig]
  split <;> split <;> rfl

theorem mem_nodes_finishShaderRig {st9 : SceneState} {n : Node} (tid : Nat)
    (thcOpt : Option Node) (p : Nat) (h : n ∈ st9.nodes) :
    n ∈ (finishShaderRig st9 tid thcOpt p).nodes := by
  simp only [finishShaderRig]
  split <;> split
  · exact List.mem_append_left _ (List.mem_append_left _ h)
  · exact List.mem_append_left _ (List.mem_append_left _ (List.mem_append_left _ h))
  · exact List.mem_append_left _ (List.mem_append_left _ h)
  · exact List.mem_append_left _ (List.mem_append_left _ (List.mem_append_left _ h))

theorem images_buildShaderRig (st2 : SceneState) (trm : Node) (thcOpt : Option Node) (p : Nat) :
    (buildShaderRig st2 trm thcOpt p).images = st2.images := by
  simp only [buildShaderRig]
  split <;> rw [images_finishShaderRig] <;> rfl

theorem mem_nodes_buildShaderRig {st2 : SceneState} {n : Node} (trm : Node)
    (thcOpt : Option Node) (p : Nat) (h : n ∈ st2.nodes) :
    n ∈ (buildShaderRig st2 trm thcOpt p).nodes := by
  simp only [buildShaderRig]
  split <;>
    exact mem_nodes_finishShaderRig _ _ _
      (List.mem_append_left _ (List.mem_append_left _ (List.mem_append_left _ h)))

/-- `buildShaderRig` inherits the `finishShaderRig` guarantees (the normal-map
search only adds a link into the translucent node) and leaves the image
registry untouched. -/
theorem buildShaderRig_spec (st2 : SceneState) (trm thc : Node) (p : Nat) :
    ∃ outId addId mixSId,
      (∃ onode ∈ (buildShaderRig st2 trm (some thc) p).nodes,
        onode.id = outId ∧ onode.type = "OUTPUT_MATERIAL") ∧
      (buildShaderRig st2 trm (some thc) p).links.filter
          (fun l => linkReplaces l outId "Surface") = [⟨addId, "Shader", outId, "Surface"⟩] ∧
      (∃ anode ∈ (buildShaderRig st2 trm (some thc) p).nodes,
        anode.id = addId ∧ anode.type = "ADD_SHADER") ∧
      (⟨p, "BSDF", addId, "Shader0"⟩ : Link) ∈ (buildShaderRig st2 trm (some thc) p).links ∧
      (⟨mixSId, "Shader", addId, "Shader1"⟩ : Link) ∈
        (buildShaderRig st2 trm (some thc) p).links ∧
      (∃ mnode ∈ (buildShaderRig st2 trm (some thc) p).nodes,
        mnode.id = mixSId ∧ mnode.type = "MIX_SHADER" ∧ mnode.fac_default = some 1) ∧
      (buildShaderRig st2 trm (some thc) p).links.filter
          (fun l => linkReplaces l mixSId "Fac") = [⟨thc.id, "Color", mixSId, "Fac"⟩] ∧
      (buildShaderRig st2 trm (some thc) p).images = st2.images := by
  simp only [buildShaderRig]
  split <;> exact finishShaderRig_spec _ _ thc p

/-- Claim C6: when both `_trm.png` and `_thc.png` resolve (and a principled
node is cached), `import_second_shader` ends with a material-output node whose
`Surface` input is driven exactly by the add-shader node, the add shader
combining the principled BSDF output and the mix-shader output, and the
mix-shader's `Fac` input driven exactly by the `_thc` texture node's Color
output (overriding the fixed default 1.0) — the `_thc` node holding an image
loaded from the resolved `_thc` path. -/
theorem second_shader_full_wiring (fs : FileSystem) (mp : MaterialProcessor) (st : SceneState)
    (ptrm pthc : String) (p : Nat)
    (htrm : find_texture_file fs.listing mp.file_path mp.base_name "_trm" = some ptrm)
    (hthc : find_texture_file fs.listing mp.file_path mp.base_name "_thc" = some pthc)
    (hp : mp.principled_node = some p) :
    ∃ st' outId addId mixSId thcId,
      import_second_shader fs mp st = .ok st' ∧
      (∃ onode ∈ st'.nodes, onode.id = outId ∧ onode.type = "OUTPUT_MATERIAL") ∧
      st'.links.filter (fun l => linkReplaces l outId "Surface") =
        [⟨addId, "Shader", outId, "Surface"⟩] ∧
      (∃ anode ∈ st'.nodes, anode.id = addId ∧ anode.type = "ADD_SHADER") ∧
      (⟨p, "BSDF", addId, "Shader0"⟩ : Link) ∈ st'.links ∧
      (⟨mixSId, "Shader", addId, "Shader1"⟩ : Link) ∈ st'.links ∧
      (∃ mnode ∈ st'.nodes, mnode.id = mixSId ∧ mnode.type = "MIX_SHADER" ∧
        mnode.fac_default = some 1) ∧
      st'.links.filter (fun l => linkReplaces l mixSId "Fac") =
        [⟨thcId, "Color", mixSId, "Fac"⟩] ∧
      (∃ tnode ∈ st'.nodes, tnode.id = thcId ∧ tnode.type = "TEX_IMAGE" ∧
        ∃ iid img, tnode.image = some iid ∧ st'.images[iid]? = some img ∧
          img.filepath = pthc) := by
  have e1 : import_texture fs mp st "_trm" false =
      (addImage (addNode st (texNode st)) (texImg fs ptrm false), some (texNode st)) := by
    rw [import_texture, htrm]
  have e2 : ∀ s : SceneState, import_texture fs mp s "_thc" true =
      (addImage (addNode s (texNode s)) (texImg fs pthc true), some (texNode s)) := by
    intro s
    rw [import_texture, hthc]
  set s1v := addImage (addNode st (texNode st)) (texImg fs ptrm false) with hs1
  set s2v := addImage (addNode s1v (texNode s1v)) (texImg fs pthc true) with hs2
  have hred : import_second_shader fs mp st =
      .ok (buildShaderRig s2v (texNode st) (some (texNode s1v)) p) := by
    simp only [import_second_shader, e1, e2, hp]
  obtain ⟨outId, addId, mixSId, h1, h2, h3, h4, h5, h6, h7, himgs⟩ :=
    buildShaderRig_spec s2v (texNode st) (texNode s1v) p
  refine ⟨buildShaderRig s2v (texNode st) (some (texNode s1v)) p,
    outId, addId, mixSId, (texNode s1v).id,
    hred, h1, h2, h3, h4, h5, h6, h7, ?_⟩
  refine ⟨texNode s1v, ?_, rfl, rfl, s1v.images.length, texImg fs pthc true, rfl, ?_, rfl⟩
  · exact mem_nodes_buildShaderRig _ _ _
      (List.mem_append_right _ (List.mem_singleton.2 rfl))
  · rw [images_buildShaderRig]
    show (s1v.images ++ [texImg fs pthc true])[s1v.images.length]? = some (texImg fs pthc true)
    exact List.getElem?_concat_length _ _

/-- A directory holding both `Mat_trm.png` and `Mat_thc.png`. -/
def fsTrmThc : FileSystem :=
  { listing := some ["Mat_trm.png", "Mat_thc.png"], pixelsOf := fun _ => [] }

theorem second_shader_full_wiring_witness :
    ∃ st' outId addId mixSId thcId,
      import_second_shader fsTrmThc (mkProcessor stBase "/t") stBase = .ok st' ∧
      (∃ onode ∈ st'.nodes, onode.id = outId ∧ onode.type = "OUTPUT_MATERIAL") ∧
      st'.links.filter (fun l => linkReplaces l outId "Surface") =
        [⟨addId, "Shader", outId, "Surface"⟩] ∧
      (∃ anode ∈ st'.nodes, anode.id = addId ∧ anode.type = "ADD_SHADER") ∧
      (⟨0, "BSDF", addId, "Shader0"⟩ : Link) ∈ st'.links ∧
      (⟨mixSId, "Shader", addId, "Shader1"⟩ : Link) ∈ st'.links ∧
      (∃ mnode ∈ st'.nodes, mnode.id = mixSId ∧ mnode.type = "MIX_SHADER" ∧
        mnode.fac_default = some 1) ∧
      st'.links.filter (fun l => linkReplaces l mixSId "Fac") =
        [⟨thcId, "Color", mixSId, "Fac"⟩] ∧
      (∃ tnode ∈ st'.nodes, tnode.id = thcId ∧ tnode.type = "TEX_IMAGE" ∧
        ∃ iid img, tnode.image = some iid ∧ st'.images[iid]? = some img ∧
          img.filepath = "/t/Mat_thc.png") :=
  second_shader_full_wiring fsTrmThc (mkProcessor stBase "/t") stBase
    "/t/Mat_trm.png" "/t/Mat_thc.png" 0 rfl rfl rfl
